import Mathlib

/-!
# Verification of the ItisPay fraud-detection risk-scoring core

Shallow embedding of the risk-scoring engine of the repository
(`risk_scoring.py`, `fiat_analyzer.py`, `crypto_analyzer.py`,
`usdc_analyzer.py`, `utils.py`, `config.py`, `risky_addresses.py`,
`fatf_lists.py`) together with theorems settling the specification claims.

Modelling conventions:
* Python floats are modelled as exact rationals (`ℚ`); `round(x, 2)` is
  modelled as exact round-half-to-even at two decimals (`pyRound2`).
* Fallible steps (`float(..)` parses, external HTTP calls) are modelled
  with `Option`; every `try/except` of the source corresponds to a
  caller that consumes the `Option`, so the embedded top level is total
  exactly because the source catches everything below it.
* External collaborators (the geo-IP service, the trained
  IsolationForest model, the Etherscan endpoints, the environment) are
  oracle functions bundled in a `Collab` record; theorems quantify over
  them.
* The per-address transaction cache of `CryptoTransactionAnalyzer` is
  explicit state (an association list) threaded through `analyze`.
-/

namespace ItisPay

/-- Constants defined in `config.py` (name, value), in source order.
`USDC_WEIGHT`, imported by `risk_scoring.py`, is absent from this list
because `config.py` does not define it. -/
def configConstants : List (String × ℚ) :=
  [("FIAT_WEIGHT", 1/2),
   ("CRYPTO_WEIGHT", 1/2),
   ("LOW_RISK_THRESHOLD", 30),
   ("MEDIUM_RISK_THRESHOLD", 70),
   ("HIGH_RISK_THRESHOLD", 90),
   ("ISOLATION_FOREST_CONTAMINATION", 1/20),
   ("ISOLATION_FOREST_RANDOM_STATE", 42),
   ("ETHERSCAN_RATE_LIMIT", 5),
   ("PROCESSING_TIMEOUT", 1),
   ("SYNTHETIC_DATA_SIZE", 1000)]

/-- `config.FIAT_WEIGHT` -/
def FIAT_WEIGHT : ℚ := 1/2

/-- `config.CRYPTO_WEIGHT` -/
def CRYPTO_WEIGHT : ℚ := 1/2

/-- `config.LOW_RISK_THRESHOLD` -/
def LOW_RISK_THRESHOLD : ℚ := 30

/-- `config.MEDIUM_RISK_THRESHOLD` -/
def MEDIUM_RISK_THRESHOLD : ℚ := 70

/-- `config.HIGH_RISK_THRESHOLD` -/
def HIGH_RISK_THRESHOLD : ℚ := 90

/-- Round-half-to-even of a rational to an integer (Python `round(x)`),
the idealization of CPython's float rounding over exact rationals. -/
def bankersRound (x : ℚ) : ℤ :=
  let f : ℤ := ⌊x⌋
  let r : ℚ := x - f
  if r < 1/2 then f
  else if r > 1/2 then f + 1
  else if 2 ∣ f then f else f + 1

/-- Python `round(x, 2)`: round to two decimal places, half to even. -/
def pyRound2 (x : ℚ) : ℚ := (bankersRound (x * 100) : ℚ) / 100

/-- `utils.get_risk_level`: tier classification of a 0-100 score. -/
def get_risk_level (score : ℚ) : String :=
  if score < LOW_RISK_THRESHOLD then "Low"
  else if score < MEDIUM_RISK_THRESHOLD then "Medium"
  else if score < HIGH_RISK_THRESHOLD then "High"
  else "Critical"

/-- Split a character list at every `.` (the group structure of the
IP regex of `utils.is_valid_ip`). -/
def splitOnDot : List Char → List (List Char)
  | [] => [[]]
  | ch :: rest =>
      match splitOnDot rest with
      | [] => if ch = '.' then [[], []] else [[ch]]
      | g :: gs => if ch = '.' then [] :: g :: gs else (ch :: g) :: gs

/-- Decimal value of a digit list (`int(octet)` on a regex `\d` group;
digits are guaranteed by the caller). -/
def digitsToNat (ds : List Char) : ℕ :=
  ds.foldl (fun n ch => n * 10 + (ch.toNat - 48)) 0

/-- `utils.is_valid_ip`: four dot-separated groups of one to three
digits, each group at most 255 (the anchored octet regex plus the
per-octet bound check). -/
def is_valid_ip (ip : String) : Bool :=
  let parts := splitOnDot ip.data
  parts.length == 4 &&
    parts.all (fun p =>
      p.length ≥ 1 && p.length ≤ 3 && p.all Char.isDigit &&
        digitsToNat p ≤ 255)

/-- `utils.is_valid_eth_address`: `0x` followed by exactly 40 hex
characters. -/
def is_valid_eth_address (address : String) : Bool :=
  match address.data with
  | '0' :: 'x' :: rest =>
      rest.length == 40 && rest.all (fun ch =>
        ch.isDigit || ('a' ≤ ch && ch ≤ 'f') || ('A' ≤ ch && ch ≤ 'F'))
  | _ => false

/-- Python `str.lower()` restricted to ASCII, on the character list of
the string (kernel-computable counterpart of `String.toLower`). -/
def pyLower (s : String) : String := String.mk (s.data.map Char.toLower)

/-- Python `max` on two numbers (kernel-computable counterpart of the
lattice `max` on `ℚ`). -/
def pyMax (a b : ℚ) : ℚ := if a ≤ b then b else a

/-- Python `min` on two numbers (kernel-computable counterpart of the
lattice `min` on `ℚ`). -/
def pyMin (a b : ℚ) : ℚ := if a ≤ b then a else b

/-- `risky_addresses.KNOWN_MIXER_ADDRESSES` (all stored lower-case). -/
def KNOWN_MIXER_ADDRESSES : List String :=
  ["0x8589427373d6d84e98730d7795d8f6f8731fda16",
   "0x722122df12d4e14e13ac3b6895a86e84145b6967",
   "0xd90e2f925da726b50c4ed8d0fb90ad053324f31b",
   "0xd96f2b1c14db8458374d9aca76e26c3d18364307",
   "0x4736dcf1b7a3d580672cce6e7c65cd5cc9cfba9d",
   "0x169ad27a470d064dede56a2d3ff727986b15d52b",
   "0x0836222f2b2b24a3f36f98668ed8f0b38d1a872f",
   "0xf67721a2d8f736e75a49fdd7fad2e31d8676542a",
   "0x9ad122c22b14202b4490edaf288fdb3c7cb3ff5e"]

/-- `risky_addresses.KNOWN_DARKNET_ADDRESSES` (the last entry really
ends in a non-hex `t` in the source). -/
def KNOWN_DARKNET_ADDRESSES : List String :=
  ["0x3cbded43efdaf0fc77b9c55f6fc9988fcc9b757d",
   "0x2c7f66c0e2c62c6386a9b526a6cf546577d9d865",
   "0x33f4f55f3a427f2f1d1c2f11bbc2fd06a3ea9f46",
   "0xbc830d54ed5e9e26d3a30d71a1e8dc6d42860345",
   "0x67fa2c06c9c6d4332f330e14a66bdf1873ef3d2b",
   "0x9cb4b8297548f3be359f7ddf4302af6d2288e08f",
   "0x9cb4b8297548f3be359f7ddf4302af6d2288e09t"]

/-- `risky_addresses.KNOWN_SCAM_ADDRESSES`. -/
def KNOWN_SCAM_ADDRESSES : List String :=
  ["0x1446d6a152245d26f79082202bcd8a8a34967f4b",
   "0x9e4c14403d7d9a499dc5d293f486926b7876b1a6",
   "0x3f17f1962b36e491b30a40b2405849e597ba5fb5",
   "0x4686a963fad842745afd3c45e622dfefd201a73a",
   "0x8c9b261faef3b3c2e64ab5e58e04615f8c788099"]

/-- Key set of `risky_addresses.RISKY_ADDRESSES_WITH_SCORES`: the union
of the mixer, darknet and scam address sets. -/
def RISKY_ADDRESSES : List String :=
  KNOWN_MIXER_ADDRESSES ++ KNOWN_DARKNET_ADDRESSES ++ KNOWN_SCAM_ADDRESSES

/-- `fatf_lists.FATF_GREY_LIST`. -/
def FATF_GREY_LIST : List String :=
  ["AL", "BB", "BF", "BI", "BW", "CF", "DZ", "ES", "GH", "HT", "JM",
   "JO", "KH", "MA", "ML", "MU", "MZ", "NG", "PK", "PA", "SD", "SN",
   "SY", "TR", "UG", "YE", "ZW"]

/-! ## Data model

`FiatLeg`/`CryptoLeg` mirror the transaction dictionaries fed to
`RiskScorer.analyze_transaction`: a `none` field is a missing dictionary
key.  The crypto `amount` is doubly optional: the outer layer is key
presence, the inner layer is whether Python `float(..)` accepts the raw
value.  A `RiskEvent` leg that is `none` covers an absent, `None` or
empty (falsy) component. -/

structure FiatLeg where
  amount : Option ℚ
  currency : Option String
  card_country : Option String
  geo_ip : Option String
deriving DecidableEq, Repr

structure CryptoLeg where
  address : Option String
  currency : Option String
  amount : Option (Option ℚ)
deriving DecidableEq, Repr

structure RiskEvent where
  fiat : Option FiatLeg
  crypto : Option CryptoLeg
deriving DecidableEq, Repr

/-- An Etherscan transaction record (`txlist` / `txlistinternal` rows)
as consumed by the crypto analyzer: `from`, `to`, `value` (base units)
and `timeStamp` (seconds), numeric strings already parsed.  An empty
`txTo` models the empty-string `to` of contract-creation records, which
the source treats as falsy. -/
structure LedgerTx where
  txFrom : String
  txTo : String
  value : ℚ
  timeStamp : ℚ
deriving DecidableEq, Repr

/-- An Etherscan `tokentx` row as consumed by `calculate_usdc_risk`
(only `from` and `to` are read, with `''` defaults). -/
structure TokenTx where
  txFrom : String
  txTo : String
deriving DecidableEq, Repr

/-- A per-channel result as stored in the `fiat_risk` / `crypto_risk` /
`usdc_risk` slots of the analysis dictionary: a 0-100 score and the
unprefixed alert list. -/
structure ChannelReport where
  score : ℚ
  alerts : List String
deriving DecidableEq, Repr

/-- The dictionary returned by `RiskScorer.analyze_transaction`. -/
structure CombinedResult where
  risk_score : ℚ
  risk_level : String
  alerts : List String
  fiat_risk : Option ChannelReport
  crypto_risk : Option ChannelReport
  usdc_risk : Option ChannelReport
deriving DecidableEq, Repr

/-- The external collaborators of one `analyze_transaction` call:
geo-IP lookup, trained-model state and scoring, the Etherscan endpoints
(`none` = transport failure, non-200 status or non-"1" API status) and
the `ETHERSCAN_API_KEY` environment variable.  All are fixed functions
for a call, matching the determinism hypotheses of the spec. -/
structure Collab where
  geoLookup : String → Option String
  trained : Bool
  modelAnalysis : FiatLeg → ℚ × List String
  fetchNormal : String → Option (List LedgerTx)
  fetchInternal : String → Option (List LedgerTx)
  envApiKey : Option String
  usdcFetch : String → Option (List TokenTx)

/-- The `CryptoTransactionAnalyzer.address_cache` state. -/
abbrev Cache := List (String × List LedgerTx)

/-- Python truthiness of an optional string (`None` and `''` falsy). -/
def truthyStr : Option String → Bool
  | none => false
  | some s => s ≠ ""

/-! ## FiatTransactionAnalyzer (`fiat_analyzer.py`) -/

/-- Geo-mismatch step of `FiatTransactionAnalyzer._rule_based_analysis`
(lines 173-184): on differing raw fields, resolve a valid-IP
`geo_ip` through the geo-IP collaborator and add 0.5 only when the
lookup returns a truthy country different from `card_country`;
otherwise (non-IP `geo_ip`) compare the raw strings and add 0.5. -/
def geo_mismatch_check (geoLookup : String → Option String)
    (card_country geo_ip : String) : ℚ × List String :=
  if card_country ≠ geo_ip then
    if is_valid_ip geo_ip then
      match geoLookup geo_ip with
      | some ip_country =>
          if ip_country ≠ "" && ip_country ≠ card_country then
            (1/2, ["Geo mismatch: " ++ ip_country ++ " IP vs " ++
                     card_country ++ " card"])
          else (0, [])
      | none => (0, [])
    else
      (1/2, ["Geo mismatch: " ++ geo_ip ++ " vs " ++ card_country])
  else (0, [])

/-- `FiatTransactionAnalyzer._rule_based_analysis` (lines 160-205): the
sequential `risk_score +=` steps are the sum of the four rule parts,
capped at 1.0, with alerts in source order.  Numeric formatting in
alert text is abstracted by `toString`. -/
def rule_based_analysis (geoLookup : String → Option String) (amount : ℚ)
    (currency card_country geo_ip : String) : ℚ × List String :=
  let geo := geo_mismatch_check geoLookup card_country geo_ip
  let amt : ℚ × List String :=
    if amount > 10000 then
      (3/10, ["Large transaction amount: " ++ toString amount ++ " " ++ currency])
    else (0, [])
  let greyCard : ℚ × List String :=
    if card_country ∈ FATF_GREY_LIST then
      (2/5, ["Card from FATF grey-listed country: " ++ card_country])
    else (0, [])
  let greyGeo : ℚ × List String :=
    if geo_ip ∈ FATF_GREY_LIST then
      (2/5, ["IP from FATF grey-listed country: " ++ geo_ip])
    else (0, [])
  (pyMin (geo.1 + amt.1 + greyCard.1 + greyGeo.1) 1,
    geo.2 ++ amt.2 ++ greyCard.2 ++ greyGeo.2)

/-- `FiatTransactionAnalyzer._validate_transaction`: all four required
keys present (the IP-format check inside only logs). -/
def fiat_validate (t : FiatLeg) : Bool :=
  t.amount.isSome && t.currency.isSome && t.card_country.isSome &&
    t.geo_ip.isSome

/-- `FiatTransactionAnalyzer.analyze`: fixed (0.8, invalid-data alert)
on validation failure; otherwise the rule score, blended 0.7/0.3 with
the opaque model score when the model is trained. -/
def fiatAnalyze (c : Collab) (t : FiatLeg) : ℚ × List String :=
  match t.amount, t.currency, t.card_country, t.geo_ip with
  | some amount, some currency, some card, some geo =>
      let rule := rule_based_analysis c.geoLookup amount currency card geo
      if c.trained then
        let m := c.modelAnalysis t
        (7/10 * m.1 + 3/10 * rule.1, rule.2 ++ m.2)
      else rule
  | _, _, _, _ => (4/5, ["Invalid transaction data"])

/-! ## CryptoTransactionAnalyzer (`crypto_analyzer.py`) -/

/-- `CryptoTransactionAnalyzer._validate_transaction`: the three keys
present, valid Ethereum address, `float(amount)` succeeds (the
supported-currency check only logs). -/
def crypto_validate (t : CryptoLeg) : Bool :=
  match t.address, t.currency, t.amount with
  | some a, some _, some v => is_valid_eth_address a && v.isSome
  | _, _, _ => false

/-- `CryptoTransactionAnalyzer._check_known_risky_address` (lines
151-174): mixer hit sets risk 0.9, darknet hit then overwrites the risk
with 1.0; alerts accumulate. -/
def check_known_risky_address (address : String) : ℚ × List String :=
  let afterMixer : ℚ × List String :=
    if pyLower address ∈ KNOWN_MIXER_ADDRESSES then
      (9/10, ["Address is a known mixer: " ++ address])
    else (0, [])
  if pyLower address ∈ KNOWN_DARKNET_ADDRESSES then
    (1, afterMixer.2 ++ ["Address is associated with darknet markets: " ++ address])
  else afterMixer

/-- `CryptoTransactionAnalyzer._get_address_transactions` (lines
176-253): cache hit returns the cached list; a miss with a non-ETH
currency and invalid address returns `none`; otherwise the normal
transaction fetch (`none` = HTTP failure, non-"1" status or transport
error) optionally extended by the internal-transaction fetch, cached on
success. -/
def get_address_transactions (c : Collab) (cache : Cache)
    (address currency : String) : Option (List LedgerTx) × Cache :=
  match List.lookup address cache with
  | some txs => (some txs, cache)
  | none =>
      if currency ≠ "ETH" && ¬ is_valid_eth_address address then (none, cache)
      else
        match c.fetchNormal address with
        | none => (none, cache)
        | some txs =>
            let all := match c.fetchInternal address with
              | some internal => txs ++ internal
              | none => txs
            (some all, (address, all) :: cache)

/-- A transaction whose `from` or truthy `to` is a known mixer
(the counterparty detection of `_check_mixer_interaction`). -/
def mixer_counterparty (tx : LedgerTx) : Bool :=
  pyLower tx.txFrom ∈ KNOWN_MIXER_ADDRESSES ||
    (tx.txTo ≠ "" && pyLower tx.txTo ∈ KNOWN_MIXER_ADDRESSES)

/-- `CryptoTransactionAnalyzer._check_mixer_interaction` (lines
255-321): value-weighted share of mixer counterparties converted from
base units, tiered into risks 0.4 / 0.6 / 0.8 / 1.0.  Values are
already parsed in `LedgerTx`, so the per-record parse fallback of the
source is not reachable here; percentage formatting is abstracted by
`toString`. -/
def check_mixer_interaction (txs : List LedgerTx) : ℚ × List String :=
  let mixerTxs := (txs.filter mixer_counterparty).length
  let mixerValue : ℚ := ((txs.filter mixer_counterparty).map
    (fun tx => tx.value / 10 ^ 18)).sum
  let totalValue : ℚ := (txs.map (fun tx => tx.value / 10 ^ 18)).sum
  if totalValue > 0 then
    let pct := mixerValue / totalValue * 100
    if pct > 0 then
      let risk : ℚ :=
        if pct > 50 then 1
        else if pct > 20 then 4/5
        else if pct > 5 then 3/5
        else 2/5
      (risk, ["Crypto: " ++ toString pct ++ "% from/to mixer (" ++
                toString mixerTxs ++ " transactions)"])
    else (0, [])
  else (0, [])

/-- Stable insertion of a transaction into a list sorted by ascending
`timeStamp` (equal keys keep their existing order, the new element goes
first among equals only when strictly earlier). -/
def insertByTime (tx : LedgerTx) : List LedgerTx → List LedgerTx
  | [] => [tx]
  | hd :: tl =>
      if tx.timeStamp ≤ hd.timeStamp then tx :: hd :: tl
      else hd :: insertByTime tx tl

/-- Stable sort by ascending `timeStamp`, modelling
`df.sort_values('timeStamp')`. -/
def sortByTime : List LedgerTx → List LedgerTx
  | [] => []
  | hd :: tl => insertByTime hd (sortByTime tl)

/-- Number of strictly decreasing consecutive pairs,
`sum(values[i] > values[i+1] for i in range(len(values)-1))`. -/
def decreasingCount : List ℚ → ℕ
  | [] => 0
  | [_] => 0
  | a :: b :: rest => (if a > b then 1 else 0) + decreasingCount (b :: rest)

/-- The peeling-chain alert text of `_analyze_transaction_patterns`. -/
def peelingAlert : String :=
  "Possible peeling chain detected (decreasing transaction values)"

/-- `CryptoTransactionAnalyzer._analyze_transaction_patterns` (lines
323-390): account-age flags, single-transaction flag and the
peeling-chain heuristic; the result risk is the max of the triggered
sub-risks and the alerts concatenate in source order.  Timestamps and
values are already numeric in `LedgerTx`, so the `pd.to_numeric`
exception path (caught into a 0.3 alert) is not reachable here. -/
def analyze_transaction_patterns (txs : List LedgerTx) : ℚ × List String :=
  match txs with
  | [] => (0, [])
  | t0 :: rest =>
      let all := t0 :: rest
      let newest := (all.map (fun tx => tx.timeStamp)).foldl pyMax t0.timeStamp
      let oldest := (all.map (fun tx => tx.timeStamp)).foldl pyMin t0.timeStamp
      let ageDays := (newest - oldest) / (60 * 60 * 24)
      let agePart : ℚ × List String :=
        if ageDays < 1 then (7/10, ["New account: less than 1 day old"])
        else if ageDays < 7 then (2/5, ["New account: less than 7 days old"])
        else (0, [])
      let singlePart : ℚ × List String :=
        if all.length == 1 then (3/10, ["Single transaction history"])
        else (0, [])
      let peelPart : ℚ × List String :=
        if all.length ≥ 3 then
          let values := (sortByTime all).map (fun tx => tx.value)
          let decCount := decreasingCount values
          if decCount ≥ 2 && (decCount : ℚ) > (values.length : ℚ) * (1/2) then
            (3/5, [peelingAlert])
          else (0, [])
        else (0, [])
      (pyMax (pyMax agePart.1 singlePart.1) peelPart.1,
        agePart.2 ++ singlePart.2 ++ peelPart.2)

/-- `CryptoTransactionAnalyzer.analyze` (lines 54-109): validation,
direct-hit check, history fetch, then either the history sub-analyses
(mixer interaction and patterns, merged by `max`) or the no-history
moderate risk 0.4 with its currency-specific alert. -/
def cryptoAnalyze (c : Collab) (cache : Cache) (t : CryptoLeg) :
    (ℚ × List String) × Cache :=
  if ¬ crypto_validate t then ((4/5, ["Invalid crypto transaction data"]), cache)
  else
    let address := t.address.getD ""
    let currency := t.currency.getD ""
    let addrPart := check_known_risky_address address
    let risk0 : ℚ := if addrPart.2 ≠ [] then pyMax 0 addrPart.1 else 0
    match get_address_transactions c cache address currency with
    | (some (tx0 :: txrest), cache') =>
        let txs := tx0 :: txrest
        let mixer := check_mixer_interaction txs
        let r1 := if mixer.2 ≠ [] then pyMax risk0 mixer.1 else risk0
        let pat := analyze_transaction_patterns txs
        let r2 := if pat.2 ≠ [] then pyMax r1 pat.1 else r1
        ((r2, addrPart.2 ++ mixer.2 ++ pat.2), cache')
    | (_, cache') =>
        let msg :=
          if currency ≠ "ETH" then
            "No Ethereum transaction history found for this " ++ currency ++
              " address"
          else "No Ethereum transaction history found"
        ((pyMax risk0 (2/5), addrPart.2 ++ [msg]), cache')

/-! ## USDC analyzer (`usdc_analyzer.py`) -/

/-- A token-transfer row whose lower-cased sender or receiver is a key
of `RISKY_ADDRESSES_WITH_SCORES` (the membership test of
`calculate_usdc_risk`). -/
def risky_token_row (tx : TokenTx) : Bool :=
  pyLower tx.txFrom ∈ RISKY_ADDRESSES || pyLower tx.txTo ∈ RISKY_ADDRESSES

/-- `usdc_analyzer.calculate_usdc_risk` (lines 123-159): share of
transfer rows whose lower-cased `from` or `to` is a key of
`RISKY_ADDRESSES_WITH_SCORES`, returned (capped at 1.0) only above the
10% threshold. -/
def calculate_usdc_risk (txs : List TokenTx) : ℚ :=
  match txs with
  | [] => 0
  | _ =>
      let total := txs.length
      let risky := (txs.filter risky_token_row).length
      let pct : ℚ := ((risky : ℚ) / (total : ℚ)) * 100
      if pct > 10 then pyMin (pct / 100) 1 else 0

/-- `usdc_analyzer.analyze_usdc_erc20_transactions` (lines 46-74): the
argument key or, when falsy, the environment key; without a truthy key,
0.0 before any fetch; with one, 0.0 on an unavailable or empty transfer
log and `calculate_usdc_risk` otherwise. -/
def analyze_usdc_erc20_transactions (argKey envKey : Option String)
    (usdcFetch : String → Option (List TokenTx)) (address : String) : ℚ :=
  let apiKey := if truthyStr argKey then argKey else envKey
  if ¬ truthyStr apiKey then 0
  else
    match usdcFetch address with
    | some (tx0 :: txrest) => calculate_usdc_risk (tx0 :: txrest)
    | _ => 0

/-! ## RiskScorer (`risk_scoring.py`) -/

/-- `RiskScorer._calculate_combined_risk_with_usdc` (lines 136-183).
Modelled from the spec: `USDC_WEIGHT` is imported by `risk_scoring.py`
from `config.py` but `config.py` defines no such constant (the import
fails), so the missing weight is the explicit parameter `usdcWeight`
here; the spec only constrains the three channel weights to sum
to 1.0. -/
def calculate_combined_risk_with_usdc (usdcWeight : ℚ)
    (fiatRisk cryptoRisk usdcRisk : ℚ)
    (hasFiat hasCrypto hasUsdc : Bool) : ℚ :=
  if hasFiat && hasCrypto && hasUsdc then
    fiatRisk * FIAT_WEIGHT + cryptoRisk * CRYPTO_WEIGHT + usdcRisk * usdcWeight
  else if hasFiat && hasCrypto then
    fiatRisk * (FIAT_WEIGHT / (FIAT_WEIGHT + CRYPTO_WEIGHT)) +
      cryptoRisk * (CRYPTO_WEIGHT / (FIAT_WEIGHT + CRYPTO_WEIGHT))
  else if hasFiat && hasUsdc then
    fiatRisk * (FIAT_WEIGHT / (FIAT_WEIGHT + usdcWeight)) +
      usdcRisk * (usdcWeight / (FIAT_WEIGHT + usdcWeight))
  else if hasCrypto && hasUsdc then
    cryptoRisk * (CRYPTO_WEIGHT / (CRYPTO_WEIGHT + usdcWeight)) +
      usdcRisk * (usdcWeight / (CRYPTO_WEIGHT + usdcWeight))
  else if hasFiat then fiatRisk
  else if hasCrypto then cryptoRisk
  else if hasUsdc then usdcRisk
  else 0

/-- `RiskScorer.analyze_transaction` (lines 35-134): run the fiat
analyzer on a present fiat leg, the crypto analyzer (threading the
address cache) on a present crypto leg, and the USDC analyzer when the
crypto leg's currency is `USDC` with a truthy address; combine the
channel scores, normalize to 0-100, classify the tier and concatenate
the channel-prefixed alerts fiat-then-crypto-then-USDC.
`has_usdc_analysis` is set only when the USDC score is positive.
`usdcWeight` stands for the undefined `config.USDC_WEIGHT` (see
`calculate_combined_risk_with_usdc`). -/
def analyze_transaction (usdcWeight : ℚ) (c : Collab) (cache : Cache)
    (e : RiskEvent) : CombinedResult × Cache :=
  let fiatPart : ℚ × List String × Option ChannelReport :=
    match e.fiat with
    | some f =>
        let fr := fiatAnalyze c f
        (fr.1, fr.2.map (fun a => "Fiat: " ++ a),
          some ⟨pyRound2 (fr.1 * 100), fr.2⟩)
    | none => (0, [], none)
  let cryptoStep : (ℚ × List String × Option ChannelReport) × Cache :=
    match e.crypto with
    | some g =>
        let res := cryptoAnalyze c cache g
        ((res.1.1, res.1.2.map (fun a => "Crypto: " ++ a),
          some ⟨pyRound2 (res.1.1 * 100), res.1.2⟩), res.2)
    | none => ((0, [], none), cache)
  let cryptoPart := cryptoStep.1
  let usdcPart : ℚ × List String × Option ChannelReport :=
    match e.crypto with
    | some g =>
        if g.currency == some "USDC" && truthyStr g.address then
          let score := analyze_usdc_erc20_transactions c.envApiKey c.envApiKey
            c.usdcFetch (g.address.getD "")
          let ualerts : List String :=
            if score > 0 then
              ["USDC transactions linked to risky addresses: " ++
                 toString (score * 100) ++ "%"]
            else []
          (score, ualerts.map (fun a => "USDC: " ++ a),
            some ⟨pyRound2 (score * 100), ualerts⟩)
        else (0, [], none)
    | none => (0, [], none)
  let hasUsdc := usdcPart.2.2.isSome && decide (0 < usdcPart.1)
  let combined := calculate_combined_risk_with_usdc usdcWeight
    fiatPart.1 cryptoPart.1 usdcPart.1 e.fiat.isSome e.crypto.isSome hasUsdc
  let normalized := pyRound2 (combined * 100)
  ({ risk_score := normalized,
     risk_level := get_risk_level normalized,
     alerts := fiatPart.2.1 ++ cryptoPart.2.1 ++ usdcPart.2.1,
     fiat_risk := fiatPart.2.2,
     crypto_risk := cryptoPart.2.2,
     usdc_risk := usdcPart.2.2 }, cryptoStep.2)

/-! ## Concrete fixtures for witnesses and counterexamples -/

/-- A geo-IP collaborator whose lookups always fail. -/
def geoDown : String → Option String := fun _ => none

/-- A geo-IP collaborator that resolves every IP to `NG`. -/
def geoNG : String → Option String := fun _ => some "NG"

/-- Collaborators with an untrained model, all external fetches
unavailable and no API key in the environment. -/
def collabEmpty : Collab :=
  { geoLookup := geoDown
    trained := false
    modelAnalysis := fun _ => (0, [])
    fetchNormal := fun _ => none
    fetchInternal := fun _ => none
    envApiKey := none
    usdcFetch := fun _ => none }

/-! ## Claim theorems -/

/-- C3: risk-tier classification is by fixed ascending thresholds,
inclusive-exclusive on the lower bound: on [0,100], score < 30 is Low,
30 ≤ score < 70 is Medium, 70 ≤ score < 90 is High, score ≥ 90 is
Critical; in particular 29.99 is Low, 30.00 Medium, 69.99 Medium and
90.00 Critical. -/
theorem claim_C3_risk_tiers (s : ℚ) (_h0 : 0 ≤ s) (_h1 : s ≤ 100) :
    (get_risk_level s = "Low" ↔ s < 30) ∧
    (get_risk_level s = "Medium" ↔ 30 ≤ s ∧ s < 70) ∧
    (get_risk_level s = "High" ↔ 70 ≤ s ∧ s < 90) ∧
    (get_risk_level s = "Critical" ↔ 90 ≤ s) ∧
    get_risk_level (2999/100) = "Low" ∧
    get_risk_level 30 = "Medium" ∧
    get_risk_level (6999/100) = "Medium" ∧
    get_risk_level 90 = "Critical" := by
  have key : ∀ t : ℚ, get_risk_level t =
      if t < 30 then "Low" else if t < 70 then "Medium"
      else if t < 90 then "High" else "Critical" := fun t => rfl
  have hb1 : get_risk_level (2999/100) = "Low" := by rw [key]; norm_num
  have hb2 : get_risk_level 30 = "Medium" := by rw [key]; norm_num
  have hb3 : get_risk_level (6999/100) = "Medium" := by rw [key]; norm_num
  have hb4 : get_risk_level 90 = "Critical" := by rw [key]; norm_num
  rcases lt_or_le s 30 with c1 | c1
  · have hg : get_risk_level s = "Low" := by rw [key, if_pos c1]
    rw [hg]
    exact ⟨iff_of_true rfl c1,
      iff_of_false (by decide) (by rintro ⟨h2, _⟩; linarith),
      iff_of_false (by decide) (by rintro ⟨h2, _⟩; linarith),
      iff_of_false (by decide) (by intro h2; linarith),
      hb1, hb2, hb3, hb4⟩
  rcases lt_or_le s 70 with c2 | c2
  · have hg : get_risk_level s = "Medium" := by
      rw [key, if_neg (not_lt.mpr c1), if_pos c2]
    rw [hg]
    exact ⟨iff_of_false (by decide) (by intro h2; linarith),
      iff_of_true rfl ⟨c1, c2⟩,
      iff_of_false (by decide) (by rintro ⟨h2, _⟩; linarith),
      iff_of_false (by decide) (by intro h2; linarith),
      hb1, hb2, hb3, hb4⟩
  rcases lt_or_le s 90 with c3 | c3
  · have hg : get_risk_level s = "High" := by
      rw [key, if_neg (not_lt.mpr c1), if_neg (not_lt.mpr c2), if_pos c3]
    rw [hg]
    exact ⟨iff_of_false (by decide) (by intro h2; linarith),
      iff_of_false (by decide) (by rintro ⟨_, h3⟩; linarith),
      iff_of_true rfl ⟨c2, c3⟩,
      iff_of_false (by decide) (by intro h2; linarith),
      hb1, hb2, hb3, hb4⟩
  · have hg : get_risk_level s = "Critical" := by
      rw [key, if_neg (not_lt.mpr c1), if_neg (not_lt.mpr c2),
        if_neg (not_lt.mpr c3)]
    rw [hg]
    exact ⟨iff_of_false (by decide) (by intro h2; linarith),
      iff_of_false (by decide) (by rintro ⟨_, h3⟩; linarith),
      iff_of_false (by decide) (by rintro ⟨_, h3⟩; linarith),
      iff_of_true rfl c3,
      hb1, hb2, hb3, hb4⟩

/-- C3 witness: the classification theorem applied at score 50. -/
theorem claim_C3_risk_tiers_witness :
    (0 : ℚ) ≤ 50 ∧ (50 : ℚ) ≤ 100 ∧
      (get_risk_level 50 = "Medium" ↔ (30 : ℚ) ≤ 50 ∧ (50 : ℚ) < 70) :=
  ⟨by norm_num, by norm_num,
    (claim_C3_risk_tiers 50 (by norm_num) (by norm_num)).2.1⟩

/-- C2 (code bug): `risk_scoring.py` imports `USDC_WEIGHT` from
`config.py`, but `config.py` defines no such constant, and the two
channel weights it does define already sum to 1.0 on their own; hence
no positive stablecoin weight can make the three channel weights sum
to 1.0, and the all-three-channels branch of
`_calculate_combined_risk_with_usdc` applies un-renormalized weights
summing to 1 + USDC_WEIGHT (witnessed by unit channel scores). -/
theorem claim_C2_weights_bug :
    List.lookup "USDC_WEIGHT" configConstants = none ∧
    FIAT_WEIGHT + CRYPTO_WEIGHT = 1 ∧
    (∀ u : ℚ, calculate_combined_risk_with_usdc u 1 1 1 true true true = 1 + u) ∧
    (∀ u : ℚ, 0 < u →
      calculate_combined_risk_with_usdc u 1 1 1 true true true ≠ 1) := by
  have key : ∀ u : ℚ,
      calculate_combined_risk_with_usdc u 1 1 1 true true true = 1 + u := by
    intro u
    simp only [calculate_combined_risk_with_usdc, FIAT_WEIGHT, CRYPTO_WEIGHT,
      Bool.and_self, if_pos]
    ring
  refine ⟨rfl, by norm_num [FIAT_WEIGHT, CRYPTO_WEIGHT], key, ?_⟩
  intro u hu
  rw [key u]
  intro h
  linarith

/-- C2 witness: the bug theorem applied at stablecoin weight 1/5. -/
theorem claim_C2_weights_bug_witness :
    (0 : ℚ) < 1/5 ∧
      calculate_combined_risk_with_usdc (1/5) 1 1 1 true true true ≠ 1 :=
  ⟨by norm_num, claim_C2_weights_bug.2.2.2 (1/5) (by norm_num)⟩

/-- C6 counterexample: for cardCountry `US` and geoSignal the IP
literal `1.2.3.4` whose geo-IP lookup fails, the rule-based component
adds nothing — the raw strings are not compared when the lookup of a
valid IP literal fails — refuting the claim that a differing raw
geoSignal still contributes the 0.5 in that case. -/
theorem claim_C6_cex :
    ("US" : String) ≠ "1.2.3.4" ∧ is_valid_ip "1.2.3.4" = true ∧
    geoDown "1.2.3.4" = none ∧
    rule_based_analysis geoDown 100 "USD" "US" "1.2.3.4" = (0, []) := by
  refine ⟨by decide, by decide, rfl, ?_⟩
  have hgeo : geo_mismatch_check geoDown "US" "1.2.3.4" = (0, []) := by
    simp only [geo_mismatch_check, geoDown]
    rw [if_pos (by decide : ("US" : String) ≠ "1.2.3.4")]
    simp [(by decide : is_valid_ip "1.2.3.4" = true)]
  have hmem1 : ("US" : String) ∉ FATF_GREY_LIST := by decide
  have hmem2 : ("1.2.3.4" : String) ∉ FATF_GREY_LIST := by decide
  simp only [rule_based_analysis, hgeo, if_neg hmem1, if_neg hmem2,
    if_neg (by norm_num : ¬ ((100 : ℚ) > 10000))]
  norm_num [pyMin]

/-- C6 (amended): with the other three rules not triggered, the geo
rule contributes 0.5 exactly when the raw fields differ and either
geoSignal is not a valid IP literal (raw-string comparison) or the
geo-IP lookup returns a truthy country different from cardCountry;
when geoSignal is a valid IP literal whose lookup fails, or returns an
empty country or cardCountry itself, the contribution is 0 (the raw
strings are not compared in that case). -/
theorem claim_C6_geo_mismatch (gl : String → Option String) (amount : ℚ)
    (currency card geo : String)
    (hamt : amount ≤ 10000) (hcard : card ∉ FATF_GREY_LIST)
    (hgeo : geo ∉ FATF_GREY_LIST) :
    ((card ≠ geo ∧ (is_valid_ip geo = false ∨
        ∃ ipc, gl geo = some ipc ∧ ipc ≠ "" ∧ ipc ≠ card)) →
      (rule_based_analysis gl amount currency card geo).1 = 1/2) ∧
    ((card = geo ∨ (is_valid_ip geo = true ∧
        ∀ ipc, gl geo = some ipc → ipc = "" ∨ ipc = card)) →
      (rule_based_analysis gl amount currency card geo).1 = 0) := by
  have hr : (rule_based_analysis gl amount currency card geo).1 =
      pyMin ((geo_mismatch_check gl card geo).1) 1 := by
    simp only [rule_based_analysis, if_neg (not_lt.mpr hamt), if_neg hcard,
      if_neg hgeo, add_zero]
  constructor
  · rintro ⟨hne, hcase⟩
    have hg : (geo_mismatch_check gl card geo).1 = 1/2 := by
      rcases hcase with hip | ⟨ipc, hgl, h1, h2⟩
      · simp [geo_mismatch_check, if_pos hne, hip]
      · by_cases hip : is_valid_ip geo = true
        · simp [geo_mismatch_check, if_pos hne, hip, hgl, h1, h2]
        · simp [geo_mismatch_check, if_pos hne, hip]
    rw [hr, hg]
    norm_num [pyMin]
  · intro hcase
    have hg : (geo_mismatch_check gl card geo).1 = 0 := by
      rcases hcase with heq | ⟨hipT, hall⟩
      · simp [geo_mismatch_check, heq]
      · by_cases hne : card = geo
        · simp [geo_mismatch_check, hne]
        · cases hgl : gl geo with
          | none => simp [geo_mismatch_check, if_pos hne, hipT, hgl]
          | some ipc =>
              rcases hall ipc hgl with h | h <;>
                simp [geo_mismatch_check, if_pos hne, hipT, hgl, h]
    rw [hr, hg]
    norm_num [pyMin]

/-- C6 witness: the amended geo rule applied at concrete inputs — a
successful lookup resolving `1.2.3.4` to `NG` against a `US` card
contributes 0.5, a failed lookup contributes 0. -/
theorem claim_C6_geo_mismatch_witness :
    (rule_based_analysis geoNG 100 "USD" "US" "1.2.3.4").1 = 1/2 ∧
    (rule_based_analysis geoDown 100 "USD" "US" "1.2.3.4").1 = 0 :=
  ⟨(claim_C6_geo_mismatch geoNG 100 "USD" "US" "1.2.3.4" (by norm_num)
      (by decide) (by decide)).1
      ⟨by decide, Or.inr ⟨"NG", rfl, by decide, by decide⟩⟩,
    (claim_C6_geo_mismatch geoDown 100 "USD" "US" "1.2.3.4" (by norm_num)
      (by decide) (by decide)).2
      (Or.inr ⟨by decide, fun ipc h => by simp [geoDown] at h⟩)⟩

/-! ### Helper lemmas -/

theorem pyMax_eq_max (a b : ℚ) : pyMax a b = max a b := by
  unfold pyMax
  split
  · rename_i h
    exact (max_eq_right h).symm
  · rename_i h
    exact (max_eq_left (le_of_not_le h)).symm

theorem pyMin_eq_min (a b : ℚ) : pyMin a b = min a b := by
  unfold pyMin
  split
  · rename_i h
    exact (min_eq_left h).symm
  · rename_i h
    exact (min_eq_right (le_of_not_le h)).symm

theorem insertByTime_length (tx : LedgerTx) (l : List LedgerTx) :
    (insertByTime tx l).length = l.length + 1 := by
  induction l with
  | nil => rfl
  | cons hd tl ih =>
      unfold insertByTime
      split
      · simp
      · simp [ih]

theorem sortByTime_length (l : List LedgerTx) :
    (sortByTime l).length = l.length := by
  induction l with
  | nil => rfl
  | cons hd tl ih => simp [sortByTime, insertByTime_length, ih]

theorem pyMax_le {a b c : ℚ} (ha : a ≤ c) (hb : b ≤ c) : pyMax a b ≤ c := by
  unfold pyMax
  split <;> assumption

theorem pyMax_eq_left {a b : ℚ} (h : b ≤ a) : pyMax a b = a := by
  unfold pyMax
  split
  · rename_i hab
    exact (le_antisymm hab h).symm
  · rfl

theorem check_mixer_interaction_le_one (txs : List LedgerTx) :
    (check_mixer_interaction txs).1 ≤ 1 := by
  simp only [check_mixer_interaction]
  split_ifs <;> norm_num

theorem analyze_transaction_patterns_le_one (txs : List LedgerTx) :
    (analyze_transaction_patterns txs).1 ≤ 1 := by
  cases txs with
  | nil => simp [analyze_transaction_patterns]
  | cons t0 rest =>
      simp only [analyze_transaction_patterns]
      split_ifs <;>
        exact pyMax_le (pyMax_le (by norm_num) (by norm_num)) (by norm_num)

/-- The four-transaction history used against claim C7: values
10, 5, 6, 3 in timestamp order give 2 strictly decreasing pairs among
3 consecutive pairs. -/
def peelCexTxs : List LedgerTx :=
  [⟨"0xa", "0xb", 10, 1000000⟩, ⟨"0xa", "0xb", 5, 2000000⟩,
   ⟨"0xa", "0xb", 6, 3000000⟩, ⟨"0xa", "0xb", 3, 4000000⟩]

/-- C7 counterexample: a four-transaction history where 2 of the 3
consecutive value pairs strictly decrease — more than half of the
pairs, and at least two decreases, so the claim says the peeling flag
fires — yet the analyzer emits no peeling alert, because the source
compares the decrease count against half the transaction count
(`len(values) * 0.5` = 2), not half the pair count. -/
theorem claim_C7_cex :
    decreasingCount ((sortByTime peelCexTxs).map (fun tx => tx.value)) = 2 ∧
    peelCexTxs.length - 1 = 3 ∧ 2 * 2 > peelCexTxs.length - 1 ∧
    peelingAlert ∉ (analyze_transaction_patterns peelCexTxs).2 := by
  have hsort : sortByTime peelCexTxs = peelCexTxs := by
    norm_num [peelCexTxs, sortByTime, insertByTime]
  have hdec : decreasingCount ((sortByTime peelCexTxs).map (fun tx => tx.value)) = 2 := by
    rw [hsort]
    norm_num [peelCexTxs, decreasingCount]
  refine ⟨hdec, by norm_num [peelCexTxs], by norm_num [peelCexTxs], ?_⟩
  norm_num [analyze_transaction_patterns, peelCexTxs, hsort, decreasingCount,
    pyMax, pyMin, peelingAlert, Bool.and_eq_true, decide_eq_true_eq,
    sortByTime_length]

/-- C7 (amended): the peeling-chain heuristic flags risk 0.6 (emitting
its alert) exactly when the history has at least 3 transactions and,
after the stable sort by timestamp, the number of strictly decreasing
consecutive value pairs is at least two and exceeds half of the
TRANSACTION COUNT — not half of the consecutive-pair count as the
claim stated. -/
theorem claim_C7_peeling (txs : List LedgerTx) :
    peelingAlert ∈ (analyze_transaction_patterns txs).2 ↔
      (3 ≤ txs.length ∧
        2 ≤ decreasingCount ((sortByTime txs).map (fun tx => tx.value)) ∧
        2 * decreasingCount ((sortByTime txs).map (fun tx => tx.value)) >
          txs.length) := by
  have key : ∀ a n : ℕ, ((a : ℚ) > (n : ℚ) * (1/2)) ↔ 2 * a > n := by
    intro a n
    constructor
    · intro h
      have h2 : (n : ℚ) < 2 * (a : ℚ) := by linarith
      exact_mod_cast h2
    · intro h
      have h2 : (n : ℚ) < 2 * (a : ℚ) := by exact_mod_cast h
      linarith
  cases txs with
  | nil => simp [analyze_transaction_patterns]
  | cons t0 rest =>
      have hlen : ((sortByTime (t0 :: rest)).map (fun tx => tx.value)).length
          = (t0 :: rest).length := by
        rw [List.length_map, sortByTime_length]
      simp only [analyze_transaction_patterns, List.mem_append]
      rw [hlen]
      split_ifs with h1 h2 h3 h4 h5 <;>
        simp_all only [List.mem_singleton, List.not_mem_nil, or_false,
          false_or, peelingAlert, String.reduceEq, Bool.and_eq_true,
          decide_eq_true_eq, ge_iff_le, gt_iff_lt, beq_iff_eq,
          List.length_cons, iff_true, iff_false, not_and, not_lt,
          true_iff, false_iff] <;>
        simp

/-- C8: with a truthy API key, the stablecoin analyzer returns 0 on an
unavailable or empty transfer log; on a non-empty log it returns the
fraction of rows whose sender or receiver is a direct registry hit,
capped at 1.0, exactly when that fraction exceeds 10%, and 0
otherwise. -/
theorem claim_C8_usdc_threshold (argKey envKey : Option String)
    (fetch : String → Option (List TokenTx)) (address : String)
    (hkey : truthyStr (if truthyStr argKey then argKey else envKey) = true) :
    ((fetch address = none ∨ fetch address = some []) →
      analyze_usdc_erc20_transactions argKey envKey fetch address = 0) ∧
    (∀ txs, fetch address = some txs → txs ≠ [] →
      (((txs.filter risky_token_row).length : ℚ) / (txs.length : ℚ) > 1/10 →
        analyze_usdc_erc20_transactions argKey envKey fetch address =
          min (((txs.filter risky_token_row).length : ℚ) / (txs.length : ℚ)) 1) ∧
      (((txs.filter risky_token_row).length : ℚ) / (txs.length : ℚ) ≤ 1/10 →
        analyze_usdc_erc20_transactions argKey envKey fetch address = 0)) := by
  have hnk : ¬ (¬ truthyStr (if truthyStr argKey then argKey else envKey) = true) := by
    simp [hkey]
  constructor
  · intro hfa
    rcases hfa with hfa | hfa <;>
      simp [analyze_usdc_erc20_transactions, hkey, hfa]
  · intro txs hfa hne
    cases txs with
    | nil => exact absurd rfl hne
    | cons tx0 rest =>
        have hred : analyze_usdc_erc20_transactions argKey envKey fetch address =
            calculate_usdc_risk (tx0 :: rest) := by
          simp [analyze_usdc_erc20_transactions, hkey, hfa]
        have hpct : calculate_usdc_risk (tx0 :: rest) =
            (if ((((tx0 :: rest).filter risky_token_row).length : ℚ) /
                  (((tx0 :: rest).length : ℚ)) * 100 > 10) then
              pyMin ((((tx0 :: rest).filter risky_token_row).length : ℚ) /
                  (((tx0 :: rest).length : ℚ)) * 100 / 100) 1
            else 0) := by
          simp only [calculate_usdc_risk]
        constructor
        · intro hfrac
          rw [hred, hpct, if_pos (by linarith), pyMin_eq_min]
          congr 1
          ring
        · intro hfrac
          rw [hred, hpct, if_neg (by intro h; linarith)]

/-- A token-transfer log with a single row whose sender is a known
mixer address. -/
def usdcFetchRisky : String → Option (List TokenTx) :=
  fun _ => some [⟨"0x8589427373d6d84e98730d7795d8f6f8731fda16", "0xdead"⟩]

/-- C8 witness: the threshold theorem applied to a one-row log whose
single counterparty is a registry hit — the risky fraction 1 exceeds
10%, so the analyzer returns 1. -/
theorem claim_C8_usdc_threshold_witness :
    analyze_usdc_erc20_transactions (some "k") none usdcFetchRisky "0xabc" = 1 := by
  have hfil : (([⟨"0x8589427373d6d84e98730d7795d8f6f8731fda16", "0xdead"⟩] :
      List TokenTx).filter risky_token_row) =
      [⟨"0x8589427373d6d84e98730d7795d8f6f8731fda16", "0xdead"⟩] := by decide
  have h := ((claim_C8_usdc_threshold (some "k") none usdcFetchRisky "0xabc"
      (by decide)).2
      [⟨"0x8589427373d6d84e98730d7795d8f6f8731fda16", "0xdead"⟩] rfl
      (by simp)).1 (by rw [hfil]; norm_num)
  rw [h, hfil]
  norm_num

theorem check_known_risky_address_darknet (address : String)
    (hd : pyLower address ∈ KNOWN_DARKNET_ADDRESSES) :
    (check_known_risky_address address).1 = 1 ∧
    (check_known_risky_address address).2 ≠ [] := by
  simp only [check_known_risky_address, if_pos hd]
  constructor
  · trivial
  · simp

/-- C4: for every valid crypto leg whose lower-cased address is in the
known-darknet set, the crypto channel score is exactly 1.0 — for every
cache state and collaborator behaviour (ledger history present, empty
or unavailable) and regardless of the mixer and pattern sub-scores,
because the direct darknet hit contributes 1.0 and the channel score
is the maximum of the sub-scores. -/
theorem claim_C4_darknet (c : Collab) (cache : Cache) (t : CryptoLeg)
    (hv : crypto_validate t = true)
    (hd : pyLower (t.address.getD "") ∈ KNOWN_DARKNET_ADDRESSES) :
    ((cryptoAnalyze c cache t).1).1 = 1 := by
  have haddr := check_known_risky_address_darknet (t.address.getD "") hd
  rcases hgt : get_address_transactions c cache (t.address.getD "")
      (t.currency.getD "") with ⟨o, cache2⟩
  simp only [cryptoAnalyze, hv, Bool.not_true, if_neg (by simp : ¬ False), hgt]
  rw [if_pos haddr.2]
  rw [haddr.1]
  have h1 : pyMax 0 1 = 1 := by norm_num [pyMax]
  rw [h1]
  cases o with
  | none => exact pyMax_eq_left (by norm_num)
  | some txs =>
      cases txs with
      | nil => exact pyMax_eq_left (by norm_num)
      | cons tx0 txrest =>
          have hm := check_mixer_interaction_le_one (tx0 :: txrest)
          have hp := analyze_transaction_patterns_le_one (tx0 :: txrest)
          split_ifs <;> simp_all [pyMax_eq_left hm, pyMax_eq_left hp]

/-- A valid crypto leg whose address is a listed darknet address. -/
def darkLeg : CryptoLeg :=
  ⟨some "0x3cbded43efdaf0fc77b9c55f6fc9988fcc9b757d", some "ETH",
    some (some 1)⟩

/-- C4 witness: the darknet theorem applied to a concrete valid leg on
the darknet list with all collaborators unavailable. -/
theorem claim_C4_darknet_witness :
    crypto_validate darkLeg = true ∧
    pyLower (darkLeg.address.getD "") ∈ KNOWN_DARKNET_ADDRESSES ∧
    ((cryptoAnalyze collabEmpty [] darkLeg).1).1 = 1 :=
  ⟨by decide, by decide,
    claim_C4_darknet collabEmpty [] darkLeg (by decide) (by decide)⟩

/-- C5: for an event with only a fiat leg, the combined riskScore is
exactly round(fiatChannelScore × 100, 2) — the single present channel's
weight collapses to 1.0 and no other term contributes — and the
reported fiat channel mirrors the same rounded score. -/
theorem claim_C5_fiat_only (uw : ℚ) (c : Collab) (cache : Cache)
    (e : RiskEvent) (f : FiatLeg) (hf : e.fiat = some f)
    (hc : e.crypto = none) :
    (analyze_transaction uw c cache e).1.risk_score =
      pyRound2 ((fiatAnalyze c f).1 * 100) ∧
    (analyze_transaction uw c cache e).1.fiat_risk =
      some ⟨pyRound2 ((fiatAnalyze c f).1 * 100), (fiatAnalyze c f).2⟩ := by
  constructor
  · simp [analyze_transaction, hf, hc, calculate_combined_risk_with_usdc]
  · simp [analyze_transaction, hf, hc]

/-- The fiat-only event of spec example scenario 3. -/
def fiatOnlyEvent : RiskEvent :=
  ⟨some ⟨some 50, some "EUR", some "DE", some "DE"⟩, none⟩

/-- C5 witness: the fiat-only theorem applied to a concrete event with
no crypto leg. -/
theorem claim_C5_fiat_only_witness :
    (analyze_transaction 0 collabEmpty [] fiatOnlyEvent).1.risk_score =
      pyRound2 ((fiatAnalyze collabEmpty
        ⟨some 50, some "EUR", some "DE", some "DE"⟩).1 * 100) :=
  (claim_C5_fiat_only 0 collabEmpty [] fiatOnlyEvent
    ⟨some 50, some "EUR", some "DE", some "DE"⟩ rfl rfl).1

/-- C10: with no Etherscan API key configured — the key argument and
the environment variable both falsy — the stablecoin analyzer returns
0.0 whatever the transfer-log fetch would have answered (so no network
call can influence the result), and at the combiner level an event
whose crypto leg is a USDC transfer silently gets a zero stablecoin
channel (score 0, no stablecoin alert) and a combined score computed
from the fiat/crypto channels alone, however risky the address's
counterparties are. -/
theorem claim_C10_missing_key (uw : ℚ) (c : Collab) (cache : Cache)
    (e : RiskEvent) (g : CryptoLeg)
    (hkey : truthyStr c.envApiKey = false)
    (hg : e.crypto = some g) (hcur : g.currency = some "USDC") :
    (∀ (argKey envKey : Option String)
        (fetch : String → Option (List TokenTx)) (address : String),
      truthyStr argKey = false → truthyStr envKey = false →
      analyze_usdc_erc20_transactions argKey envKey fetch address = 0) ∧
    ((analyze_transaction uw c cache e).1.usdc_risk = none ∨
      (analyze_transaction uw c cache e).1.usdc_risk = some ⟨0, []⟩) ∧
    (analyze_transaction uw c cache e).1.alerts =
      (Option.elim e.fiat [] (fun f => (fiatAnalyze c f).2)).map
        (fun a => "Fiat: " ++ a) ++
      ((cryptoAnalyze c cache g).1.2).map (fun a => "Crypto: " ++ a) ∧
    (analyze_transaction uw c cache e).1.risk_score =
      pyRound2 (calculate_combined_risk_with_usdc uw
        (Option.elim e.fiat 0 (fun f => (fiatAnalyze c f).1))
        ((cryptoAnalyze c cache g).1.1) 0 e.fiat.isSome true false * 100) := by
  have part1 : ∀ (argKey envKey : Option String)
      (fetch : String → Option (List TokenTx)) (address : String),
      truthyStr argKey = false → truthyStr envKey = false →
      analyze_usdc_erc20_transactions argKey envKey fetch address = 0 := by
    intro argKey envKey fetch address h1 h2
    simp [analyze_usdc_erc20_transactions, h1, h2]
  have husdc0 : analyze_usdc_erc20_transactions c.envApiKey c.envApiKey
      c.usdcFetch (g.address.getD "") = 0 :=
    part1 _ _ _ _ hkey hkey
  have hr0 : pyRound2 0 = 0 := by
    norm_num [pyRound2, bankersRound]
  refine ⟨part1, ?_, ?_, ?_⟩ <;>
    cases hef : e.fiat <;>
      by_cases haddr : truthyStr g.address = true <;>
        simp [analyze_transaction, hg, hcur, hef, haddr, husdc0, hr0]

/-- A crypto leg carrying a USDC transfer at a valid address. -/
def usdcLeg : CryptoLeg :=
  ⟨some "0x742d35cc6634c0532925a3b844bc454e4438f44e", some "USDC",
    some (some 1)⟩

/-- An event whose only leg is the USDC crypto leg. -/
def usdcEvent : RiskEvent := ⟨none, some usdcLeg⟩

/-- C10 witness: the missing-key theorem applied to a concrete USDC
event with an unset environment key, against a fetch that would report
a risky counterparty. -/
theorem claim_C10_missing_key_witness :
    analyze_usdc_erc20_transactions none none usdcFetchRisky "0xabc" = 0 ∧
    ((analyze_transaction 0 collabEmpty [] usdcEvent).1.usdc_risk = none ∨
      (analyze_transaction 0 collabEmpty [] usdcEvent).1.usdc_risk =
        some ⟨0, []⟩) :=
  ⟨(claim_C10_missing_key 0 collabEmpty [] usdcEvent usdcLeg rfl rfl rfl).1
      none none usdcFetchRisky "0xabc" rfl rfl,
    (claim_C10_missing_key 0 collabEmpty [] usdcEvent usdcLeg rfl rfl
      rfl).2.1⟩

theorem get_address_transactions_idem (c : Collab) (cache : Cache)
    (a cur : String) :
    get_address_transactions c
        (get_address_transactions c cache a cur).2 a cur =
      get_address_transactions c cache a cur := by
  rcases hg : get_address_transactions c cache a cur with ⟨o, cache2⟩
  unfold get_address_transactions at hg
  rcases hl : List.lookup a cache with _ | txs
  · rw [hl] at hg
    split_ifs at hg with h1
    · cases hg
      simp only [Bool.and_eq_true, decide_eq_true_eq] at h1
      simp [get_address_transactions, hl, h1.1, h1.2]
    · rcases hf : c.fetchNormal a with _ | txs2
      · simp only [hf] at hg
        cases hg
        simp [get_address_transactions, hl, h1, hf]
      · simp only [hf] at hg
        cases hg
        simp [get_address_transactions, List.lookup, hl, h1, hf]
  · rw [hl] at hg
    cases hg
    simp [get_address_transactions, hl]

theorem cryptoAnalyze_idem (c : Collab) (cache : Cache) (t : CryptoLeg) :
    cryptoAnalyze c (cryptoAnalyze c cache t).2 t =
      cryptoAnalyze c cache t := by
  by_cases hv : crypto_validate t = true
  · rcases hgt : get_address_transactions c cache (t.address.getD "")
        (t.currency.getD "") with ⟨o, cache2⟩
    have hidem := get_address_transactions_idem c cache (t.address.getD "")
      (t.currency.getD "")
    rw [hgt] at hidem
    cases o with
    | none => simp [cryptoAnalyze, hv, hgt, hidem]
    | some txs =>
        cases txs with
        | nil => simp [cryptoAnalyze, hv, hgt, hidem]
        | cons tx0 txrest => simp [cryptoAnalyze, hv, hgt, hidem]
  · simp [cryptoAnalyze, hv]

/-- C9: analyze is deterministic and idempotent over its only mutable
state: re-running `analyze_transaction` on the same event, with the
same collaborator responses and the cache state left by the first run,
returns the identical CombinedResult (same riskScore, riskLevel, and
alert list in the same order). -/
theorem claim_C9_idempotent (uw : ℚ) (c : Collab) (cache : Cache)
    (e : RiskEvent) :
    (analyze_transaction uw c ((analyze_transaction uw c cache e).2)
        e).1 =
      (analyze_transaction uw c cache e).1 := by
  cases hg : e.crypto with
  | none => simp [analyze_transaction, hg]
  | some g =>
      have hci := cryptoAnalyze_idem c cache g
      simp [analyze_transaction, hg, hci]

theorem get_risk_level_cases (s : ℚ) :
    get_risk_level s = "Low" ∨ get_risk_level s = "Medium" ∨
    get_risk_level s = "High" ∨ get_risk_level s = "Critical" := by
  unfold get_risk_level
  split_ifs <;> simp

theorem fiatAnalyze_invalid (c : Collab) (f : FiatLeg)
    (h : fiat_validate f = false) :
    fiatAnalyze c f = (4/5, ["Invalid transaction data"]) := by
  rcases f with ⟨oa, oc, occ, og⟩
  cases oa <;> cases oc <;> cases occ <;> cases og <;>
    simp_all [fiat_validate, fiatAnalyze]

theorem cryptoAnalyze_invalid (c : Collab) (cache : Cache) (t : CryptoLeg)
    (h : crypto_validate t = false) :
    cryptoAnalyze c cache t =
      ((4/5, ["Invalid crypto transaction data"]), cache) := by
  simp [cryptoAnalyze, h]

theorem cryptoAnalyze_no_history (c : Collab) (cache : Cache)
    (t : CryptoLeg) (hv : crypto_validate t = true)
    (haddr0 : check_known_risky_address (t.address.getD "") = (0, []))
    (hl : List.lookup (t.address.getD "") cache = none)
    (hf : c.fetchNormal (t.address.getD "") = none) :
    (cryptoAnalyze c cache t).1 =
      (2/5,
        [if t.currency.getD "" ≠ "ETH" then
           "No Ethereum transaction history found for this " ++
             t.currency.getD "" ++ " address"
         else "No Ethereum transaction history found"]) := by
  have hvalid : is_valid_eth_address (t.address.getD "") = true := by
    rcases t with ⟨oa, oc, ov⟩
    cases oa <;> cases oc <;> cases ov <;> simp_all [crypto_validate]
  have hget : get_address_transactions c cache (t.address.getD "")
      (t.currency.getD "") = (none, cache) := by
    simp [get_address_transactions, hl, hvalid, hf]
  simp only [cryptoAnalyze, hv, hget, haddr0]
  norm_num [pyMax]

/-- C1: the combiner is total and degrades instead of failing: for
every event, cache state and collaborator behaviour the embedded
`analyze_transaction` returns a CombinedResult whose risk level is one
of the four tiers (every Python `raise` site of the analyzers is
caught below the top level and modelled by an `Option` consumed
there); an invalid fiat or crypto leg — missing field, malformed
address or unparsable amount — degrades to the fixed 0.8 channel
report with its invalid-data alert, and an external-API failure on a
valid, unlisted crypto address degrades to the moderate 0.4 no-history
report with its alert, never an error. -/
theorem claim_C1_total_degradation (uw : ℚ) (c : Collab) (cache : Cache)
    (e : RiskEvent) :
    ((analyze_transaction uw c cache e).1.risk_level = "Low" ∨
      (analyze_transaction uw c cache e).1.risk_level = "Medium" ∨
      (analyze_transaction uw c cache e).1.risk_level = "High" ∨
      (analyze_transaction uw c cache e).1.risk_level = "Critical") ∧
    (∀ f, e.fiat = some f → fiat_validate f = false →
      (analyze_transaction uw c cache e).1.fiat_risk =
        some ⟨80, ["Invalid transaction data"]⟩) ∧
    (∀ g, e.crypto = some g → crypto_validate g = false →
      (analyze_transaction uw c cache e).1.crypto_risk =
        some ⟨80, ["Invalid crypto transaction data"]⟩) ∧
    (∀ g, e.crypto = some g → crypto_validate g = true →
      check_known_risky_address (g.address.getD "") = (0, []) →
      List.lookup (g.address.getD "") cache = none →
      c.fetchNormal (g.address.getD "") = none →
      (analyze_transaction uw c cache e).1.crypto_risk =
        some ⟨40,
          [if g.currency.getD "" ≠ "ETH" then
             "No Ethereum transaction history found for this " ++
               g.currency.getD "" ++ " address"
           else "No Ethereum transaction history found"]⟩) := by
  have h80 : pyRound2 ((4/5 : ℚ) * 100) = 80 := by
    norm_num [pyRound2, bankersRound]
  have h40 : pyRound2 ((2/5 : ℚ) * 100) = 40 := by
    norm_num [pyRound2, bankersRound]
  refine ⟨?_, ?_, ?_, ?_⟩
  · cases hef : e.fiat <;> cases heg : e.crypto <;>
      · simp only [analyze_transaction, hef, heg]
        exact get_risk_level_cases _
  · intro f hef hval
    cases heg : e.crypto <;>
      simp [analyze_transaction, hef, heg, fiatAnalyze_invalid c f hval, h80]
  · intro g heg hval
    cases hef : e.fiat <;>
      simp [analyze_transaction, hef, heg,
        cryptoAnalyze_invalid c cache g hval, h80]
  · intro g heg hval haddr0 hl hf
    have hch := cryptoAnalyze_no_history c cache g hval haddr0 hl hf
    cases hef : e.fiat <;>
      simp [analyze_transaction, hef, heg, hch, h40]

/-- A fiat leg with a missing amount field. -/
def invalidFiatLeg : FiatLeg := ⟨none, some "USD", some "US", some "NG"⟩

/-- A crypto leg with a malformed address. -/
def invalidCryptoLeg : CryptoLeg := ⟨some "0xzz", some "ETH", some (some 1)⟩

/-- A valid ETH crypto leg at an unlisted address. -/
def ethLeg : CryptoLeg :=
  ⟨some "0x742d35cc6634c0532925a3b844bc454e4438f44e", some "ETH",
    some (some 1)⟩

/-- C1 witness: the degradation theorem applied to a concrete event
with an invalid fiat leg, to one with an invalid crypto leg, and to a
valid crypto-only event whose ledger fetch fails. -/
theorem claim_C1_total_degradation_witness :
    (analyze_transaction 0 collabEmpty []
        ⟨some invalidFiatLeg, none⟩).1.fiat_risk =
      some ⟨80, ["Invalid transaction data"]⟩ ∧
    (analyze_transaction 0 collabEmpty []
        ⟨none, some invalidCryptoLeg⟩).1.crypto_risk =
      some ⟨80, ["Invalid crypto transaction data"]⟩ ∧
    (analyze_transaction 0 collabEmpty []
        ⟨none, some ethLeg⟩).1.crypto_risk =
      some ⟨40, ["No Ethereum transaction history found"]⟩ := by
  have haddr0 : check_known_risky_address (ethLeg.address.getD "") =
      (0, []) := by
    have h1 : pyLower (ethLeg.address.getD "") ∉ KNOWN_MIXER_ADDRESSES := by
      decide
    have h2 : pyLower (ethLeg.address.getD "") ∉ KNOWN_DARKNET_ADDRESSES := by
      decide
    simp [check_known_risky_address, h1, h2]
  refine ⟨(claim_C1_total_degradation 0 collabEmpty []
      ⟨some invalidFiatLeg, none⟩).2.1 invalidFiatLeg rfl (by decide),
    (claim_C1_total_degradation 0 collabEmpty []
      ⟨none, some invalidCryptoLeg⟩).2.2.1 invalidCryptoLeg rfl (by decide),
    ?_⟩
  have h := (claim_C1_total_degradation 0 collabEmpty []
    ⟨none, some ethLeg⟩).2.2.2 ethLeg rfl (by decide) haddr0 rfl rfl
  simpa using h

end ItisPay
